import Mathlib

/-!
# peerchat: the terminal UI's input handler, command executor and event loop

A shallow embedding of `src/ui.go`.

* Go strings are character lists (`Str`).  The only string operations the file
  performs are the length test, the prefix test against the one-byte string
  `/`, the split at the one-byte string of a single space, equality against
  literals, and concatenation through `fmt.Sprintf` with `%s` verbs.
* The three widgets (`messageBox`, `peerBox`, `inputBox`) are modelled by the
  part of their state the file reads or writes: a title and a text for a text
  view, a label and a text for the input field.
* A peer identifier is sliced by byte offset (`peerid[len(peerid)-8:]`), so
  peer identifiers and the text of `peerBox` are byte sequences (`ByteStr`).
* Everything the file does to a collaborator (a channel send, a call of a
  `ChatRoom` method, `JoinRoom`, `time.Sleep`, a widget call, a `go` statement)
  is appended, in program order, to `UI.trace`.
* `JoinRoom`, `SendFile`, `UpdateUsername`, `GetPeers` are not defined in
  `ui.go`; their outcomes are supplied by a `Collaborators` record.
* An index or slice expression that can go out of range makes the enclosing
  function return `Option`; `none` is the Go run-time panic.
-/

namespace Peerchat

/-- A Go string. -/
abbrev Str := List Char

/-- A Go string as the sequence of its bytes, each below 256; used where the
code measures and slices a string by byte offset. -/
abbrev ByteStr := List Nat

/-! ## Types declared or used by `ui.go` -/

/-- The `uicommand` struct of `ui.go`. -/
structure uicommand where
  cmdtype : Str
  cmdarg : Str
deriving DecidableEq

/-- The `logEntry` struct: `ui.go` builds it from the fields `Prefix` and `Msg`. -/
structure logEntry where
  Prefix : Str
  Msg : Str
deriving DecidableEq

/-- The `chatMsg` struct: `ui.go` reads the fields `SenderName` and `Text`. -/
structure chatMsg where
  SenderName : Str
  Text : Str
deriving DecidableEq

/-- The fields of `ChatRoom` that `ui.go` reads through the embedded
`*ChatRoom`, and `ptr`, the identity of the handle (the pointer value). -/
structure ChatRoom where
  ptr : Nat
  NodeHost : Nat
  RoomName : Str
  Username : Str
deriving DecidableEq

/-- Outcomes of the operations `ui.go` calls but does not define.
`JoinRoom` yields the new handle or the error's text, `SendFile` yields the
error's text or `none` for a nil error, `UpdateUsername` yields the receiver
after the call, `GetPeers` yields the bytes of the peers' `Pretty()` strings. -/
structure Collaborators where
  JoinRoom : Nat → Str → Str → Except Str ChatRoom
  SendFile : ChatRoom → Str → Option Str
  UpdateUsername : ChatRoom → Str → ChatRoom
  GetPeers : ChatRoom → List ByteStr

/-- One operation on a collaborator, as recorded in `UI.trace`.  A channel
or method of a room carries the `ptr` of the room it belongs to. -/
inductive Op where
  /-- The send `ui.LogChannel <- e`, on the log channel of room `room`. -/
  | LogChannel (room : Nat) (e : logEntry)
  /-- The send `ui.OutgoingMessages <- msg`, on the outgoing channel of room `room`. -/
  | OutgoingMessages (room : Nat) (msg : Str)
  /-- The call `ui.TerminalApp.Stop()`. -/
  | Stop
  /-- The call `JoinRoom(host, username, roomname)`. -/
  | JoinRoom (host : Nat) (username roomname : Str)
  /-- The assignment `ui.ChatRoom = newchatroom`. -/
  | AssignChatRoom (room : Nat)
  /-- The call `time.Sleep(d)`, with `d` in nanoseconds. -/
  | Sleep (ns : Nat)
  /-- The call `room.Leave()`. -/
  | Leave (room : Nat)
  /-- The call `ui.UpdateUsername(name)`. -/
  | UpdateUsername (room : Nat) (name : Str)
  /-- The call `ui.ChatRoom.SendFile(path)`. -/
  | SendFile (room : Nat) (path : Str)
  /-- The call `ui.GetPeers()`. -/
  | GetPeers (room : Nat)
  /-- The call `ui.messageBox.Clear()`. -/
  | Clear
  /-- The call `ui.messageBox.SetTitle(title)`. -/
  | SetTitle (title : Str)
  /-- The call `ui.inputBox.SetLabel(label)`. -/
  | SetLabel (label : Str)
  /-- A call of `fmt.Fprintf` on `ui.messageBox` that writes `text`. -/
  | Fprintf (text : Str)
  /-- The call `ui.peerBox.Clear()`, made between `Lock` and `Unlock`. -/
  | PeerClear
  /-- The call `fmt.Fprintln(ui.peerBox, peerid)`. -/
  | PeerFprintln (peerid : ByteStr)
  /-- The call `ui.TerminalApp.Draw()`. -/
  | Draw
  /-- The statement `go ui.handlecommand(cmd)`. -/
  | GoHandlecommand (cmd : uicommand)
deriving DecidableEq

/-- A `tview.TextView`: its border title and its text. -/
structure TextView where
  title : Str
  text : Str
deriving DecidableEq

/-- The `tview.TextView` of the peer list: its border title, and its text as
bytes. -/
structure PeerView where
  title : Str
  text : ByteStr
deriving DecidableEq

/-- A `tview.InputField`: its label and its text. -/
structure InputField where
  label : Str
  text : Str
deriving DecidableEq

/-- The `UI` struct, with the trace of operations performed so far. -/
structure UI where
  ChatRoom : ChatRoom
  messageBox : TextView
  peerBox : PeerView
  inputBox : InputField
  trace : List Op

/-- Append one operation to the trace. -/
def UI.emit (ui : UI) (op : Op) : UI :=
  { ui with trace := ui.trace ++ [op] }

/-! ## The input handler (`input.SetDoneFunc` in `NewUI`) -/

/-- The value of `tcell.KeyEnter`. -/
def KeyEnter : Int := 13

/-- Go's `strings.HasPrefix`. -/
def HasPrefix (s p : Str) : Bool :=
  p.isPrefixOf s

/-- Go's `strings.Split(s, sep)` for a separator of one character: the
pieces of `s` between consecutive occurrences of `sep`, of which there is
always at least one. -/
def Split : Str → Char → List Str
  | [], _ => [[]]
  | c :: cs, sep =>
    if c = sep then [] :: Split cs sep
    else
      match Split cs sep with
      | [] => [[c]]
      | p :: ps => (c :: p) :: ps

/-- What the handler sends: a value on `cmdchan` or on `msgchan`. -/
inductive ChanSend where
  | cmdchan (cmd : uicommand)
  | msgchan (line : Str)
deriving DecidableEq

/-- The closure given to `input.SetDoneFunc`, as a function of the key and
of the input field's text.  It yields the field's text afterwards and the
channel sends it made; `none` is an index-out-of-range panic. -/
def doneFunc (key : Int) (text : Str) : Option (Str × List ChanSend) :=
  if key ≠ KeyEnter then some (text, [])
  else
    let line := text
    if line.length = 0 then some (text, [])
    else if HasPrefix line "/".toList then
      let cmdparts := Split line ' '
      let cmdparts := if cmdparts.length = 1 then cmdparts ++ [[]] else cmdparts
      match cmdparts[0]?, cmdparts[1]? with
      | some verb, some arg => some ([], [ChanSend.cmdchan ⟨verb, arg⟩])
      | _, _ => none
    else some ([], [ChanSend.msgchan line])

/-! ## The command executor (`UI.handlecommand`) -/

/-- The method `UI.handlecommand`. -/
def handlecommand (env : Collaborators) (cmd : uicommand) (ui : UI) : UI :=
  if cmd.cmdtype = "/q".toList then
    ui.emit Op.Stop
  else if cmd.cmdtype = "/r".toList then
    if cmd.cmdarg = [] then
      ui.emit (Op.LogChannel ui.ChatRoom.ptr
        ⟨"badcmd".toList, "missing room name for command".toList⟩)
    else
      let ui := ui.emit (Op.LogChannel ui.ChatRoom.ptr
        ⟨"roomchange".toList, "joining new room '".toList ++ cmd.cmdarg ++ "'".toList⟩)
      let oldchatroom := ui.ChatRoom
      let ui := ui.emit (Op.JoinRoom ui.ChatRoom.NodeHost ui.ChatRoom.Username cmd.cmdarg)
      match env.JoinRoom ui.ChatRoom.NodeHost ui.ChatRoom.Username cmd.cmdarg with
      | Except.error err =>
        ui.emit (Op.LogChannel ui.ChatRoom.ptr
          ⟨"jumperr".toList, "could not change chat room - ".toList ++ err⟩)
      | Except.ok newchatroom =>
        let ui := { ui with ChatRoom := newchatroom }.emit (Op.AssignChatRoom newchatroom.ptr)
        let ui := ui.emit (Op.Sleep 1000000000)
        let ui := ui.emit (Op.Leave oldchatroom.ptr)
        let ui := { ui with messageBox := { ui.messageBox with text := [] } }.emit Op.Clear
        let title := "ChatRoom-".toList ++ ui.ChatRoom.RoomName
        { ui with messageBox := { ui.messageBox with title := title } }.emit (Op.SetTitle title)
  else if cmd.cmdtype = "/u".toList then
    if cmd.cmdarg = [] then
      ui.emit (Op.LogChannel ui.ChatRoom.ptr
        ⟨"badcmd".toList, "missing user name for command".toList⟩)
    else
      let ui := { ui with ChatRoom := env.UpdateUsername ui.ChatRoom cmd.cmdarg }.emit
        (Op.UpdateUsername ui.ChatRoom.ptr cmd.cmdarg)
      let label := ui.ChatRoom.Username ++ " > ".toList
      { ui with inputBox := { ui.inputBox with label := label } }.emit (Op.SetLabel label)
  else if cmd.cmdtype = "/send".toList then
    if cmd.cmdarg = [] then
      ui.emit (Op.LogChannel ui.ChatRoom.ptr
        ⟨"badcmd".toList, "missing file name for command".toList⟩)
    else
      let err := env.SendFile ui.ChatRoom cmd.cmdarg
      let ui := ui.emit (Op.SendFile ui.ChatRoom.ptr cmd.cmdarg)
      match err with
      | some err =>
        ui.emit (Op.LogChannel ui.ChatRoom.ptr
          ⟨"error".toList, "Failed to send file: ".toList ++ err⟩)
      | none =>
        ui.emit (Op.LogChannel ui.ChatRoom.ptr
          ⟨"info".toList, "File sent successfully!".toList⟩)
  else
    ui.emit (Op.LogChannel ui.ChatRoom.ptr
      ⟨"badcmd".toList, "unsupported command - ".toList ++ cmd.cmdtype⟩)

/-! ## Rendering and the event loop (`UI.starteventhandler`) -/

/-- A `fmt.Fprintf(ui.messageBox, "%s %s\n", prompt, body)`. -/
def UI.printLine (ui : UI) (prompt body : Str) : UI :=
  let out := prompt ++ " ".toList ++ body ++ "\n".toList
  { ui with messageBox := { ui.messageBox with text := ui.messageBox.text ++ out } }.emit
    (Op.Fprintf out)

/-- The method `UI.display_chatmessage`. -/
def display_chatmessage (ui : UI) (msg : chatMsg) : UI :=
  ui.printLine ("[green]<".toList ++ msg.SenderName ++ ">:[-]".toList) msg.Text

/-- The method `UI.display_selfmessage`. -/
def display_selfmessage (ui : UI) (msg : Str) : UI :=
  ui.printLine ("[blue]<".toList ++ ui.ChatRoom.Username ++ ">:[-]".toList) msg

/-- The method `UI.display_logmessage`. -/
def display_logmessage (ui : UI) (log : logEntry) : UI :=
  ui.printLine ("[yellow]<".toList ++ log.Prefix ++ ">:[-]".toList) log.Msg

/-- The loop of `UI.syncpeerbox` over the bytes of the peers' `Pretty()`
strings.  `len(peerid)` is the number of bytes, and the slice
`peerid[len(peerid)-8:]` keeps the last eight bytes; it panics when the string
has fewer than eight bytes.  `Fprintln` writes the slice and a line feed
(byte 10). -/
def printPeers : List ByteStr → UI → Option UI
  | [], ui => some ui
  | peerid :: rest, ui =>
    if peerid.length < 8 then none
    else
      let peerid := peerid.drop (peerid.length - 8)
      printPeers rest
        ({ ui with peerBox := { ui.peerBox with text := ui.peerBox.text ++ peerid ++ [10] } }.emit
          (Op.PeerFprintln peerid))

/-- The method `UI.syncpeerbox`. -/
def syncpeerbox (env : Collaborators) (ui : UI) : Option UI :=
  let peers := env.GetPeers ui.ChatRoom
  let ui := ui.emit (Op.GetPeers ui.ChatRoom.ptr)
  let ui := { ui with peerBox := { ui.peerBox with text := [] } }.emit Op.PeerClear
  (printPeers peers ui).map fun ui => ui.emit Op.Draw

/-- The `select` cases of `UI.starteventhandler`, by the source that is ready. -/
inductive Event where
  | MsgInputs (msg : Str)
  | CmdInputs (cmd : uicommand)
  | IncomingMessages (msg : chatMsg)
  | LogChannel (log : logEntry)
  | refreshticker
  | roomCtxDone

/-- One iteration of the loop of `UI.starteventhandler` for the case that
fired: the state afterwards and whether the loop goes on (`false` is the
`return` of the `roomCtx.Done()` case); `none` is a panic. -/
def starteventhandler_step (env : Collaborators) (ev : Event) (ui : UI) : Option (UI × Bool) :=
  match ev with
  | Event.MsgInputs msg =>
    let ui := ui.emit (Op.OutgoingMessages ui.ChatRoom.ptr msg)
    some (display_selfmessage ui msg, true)
  | Event.CmdInputs cmd => some (ui.emit (Op.GoHandlecommand cmd), true)
  | Event.IncomingMessages msg => some (display_chatmessage ui msg, true)
  | Event.LogChannel log => some (display_logmessage ui log, true)
  | Event.refreshticker => (syncpeerbox env ui).map fun ui => (ui, true)
  | Event.roomCtxDone => some (ui, false)

/-! ## The spec's wording of the command split, for comparison -/

/-- Follows the spec's words, not the code: the verb token of a command line
split "on the first run of whitespace". -/
def spec_verb (line : Str) : Str :=
  line.takeWhile fun c => !c.isWhitespace

/-- Follows the spec's words, not the code: "the remainder" of a command line
after its first run of whitespace, empty when there is none. -/
def spec_argument (line : Str) : Str :=
  (line.dropWhile fun c => !c.isWhitespace).dropWhile Char.isWhitespace

/-- Targets of the `Leave` calls recorded in a trace, in order. -/
def leaveTargets (t : List Op) : List Nat :=
  t.filterMap fun op =>
    match op with
    | Op.Leave room => some room
    | _ => none

/-! ## Sample data used to instantiate the theorems -/

/-- A room named `lobby` for the user `alice`. -/
def sampleRoom : ChatRoom :=
  { ptr := 1, NodeHost := 7, RoomName := "lobby".toList, Username := "alice".toList }

/-- A UI bound to `sampleRoom`, with some rendered history. -/
def sampleUI : UI :=
  { ChatRoom := sampleRoom
    messageBox := { title := "lobby".toList, text := "earlier\n".toList }
    peerBox := { title := "Peers".toList, text := [] }
    inputBox := { label := "alice > ".toList, text := [] }
    trace := [] }

/-- Collaborators: joining `ghost` fails, any other room is joined with a
fresh handle; sending `missing.txt` fails, any other file is sent. -/
def sampleEnv : Collaborators :=
  { JoinRoom := fun host username roomname =>
      if roomname = "ghost".toList then Except.error "no such topic".toList
      else Except.ok { ptr := 2, NodeHost := host, RoomName := roomname, Username := username }
    SendFile := fun _ path =>
      if path = "missing.txt".toList then some "open missing.txt: no such file".toList else none
    UpdateUsername := fun room name => { room with Username := name }
    GetPeers := fun _ => [] }


/-! ## The input handler -/

/-- The loop of `strings.Split` unfolded once: the first piece is the text
before the first separator, the other pieces come from the text after it. -/
theorem Split_eq (s : Str) (sep : Char) :
    Split s sep = s.takeWhile (fun c => c != sep) ::
      (match s.dropWhile (fun c => c != sep) with
       | [] => []
       | _ :: rest => Split rest sep) := by
  induction s with
  | nil => simp [Split]
  | cons c cs ih =>
    by_cases h : c = sep
    · subst h
      simp [Split, List.takeWhile, List.dropWhile]
    · have hb : (c != sep) = true := by simpa using h
      rw [Split, if_neg h, ih]
      simp [List.takeWhile, List.dropWhile, hb]

/-- The two parts the handler reads from a command line. -/
theorem doneFunc_command (line : Str) (h : line.head? = some '/') :
    doneFunc KeyEnter line = some ([], [ChanSend.cmdchan
      ⟨line.takeWhile (fun c => c != ' '),
       ((line.dropWhile (fun c => c != ' ')).drop 1).takeWhile (fun c => c != ' ')⟩]) := by
  obtain ⟨rest, rfl⟩ : ∃ rest, line = '/' :: rest := by
    cases line with
    | nil => simp at h
    | cons c cs => exact ⟨cs, by simp at h; rw [h]⟩
  have hp : HasPrefix ('/' :: rest) "/".toList = true := by
    simp [HasPrefix, List.isPrefixOf]
  simp only [doneFunc, ne_eq, not_true_eq_false, if_false, List.length_cons,
    Nat.succ_ne_zero, Nat.add_one_ne_zero, hp, if_true]
  rw [Split_eq]
  cases hd : List.dropWhile (fun c => c != ' ') ('/' :: rest) with
  | nil => simp
  | cons d rest2 =>
    have h2 := Split_eq rest2 ' '
    simp [h2]


/-- A non-command line is sent whole on the message channel. -/
theorem doneFunc_message (line : Str) (hne : line ≠ []) (h : line.head? ≠ some '/') :
    doneFunc KeyEnter line = some ([], [ChanSend.msgchan line]) := by
  cases line with
  | nil => exact absurd rfl hne
  | cons c cs =>
    have hc : c ≠ '/' := by
      intro hc
      exact h (by simp [hc])
    have hp : HasPrefix (c :: cs) ['/'] = false := by
      simp [HasPrefix, List.isPrefixOf, Ne.symm hc]
    simp [doneFunc, hp]

/-- On a non-empty line the handler does not panic, clears the field and
sends exactly one value. -/
theorem doneFunc_sends_one (line : Str) (hne : line ≠ []) :
    ∃ r, doneFunc KeyEnter line = some ([], [r]) := by
  by_cases h : line.head? = some '/'
  · exact ⟨_, doneFunc_command line h⟩
  · exact ⟨_, doneFunc_message line hne h⟩

/-- The verb of a command line starts with the sigil. -/
theorem verb_ne_nil (line : Str) (h : line.head? = some '/') :
    line.takeWhile (fun c => c != ' ') ≠ [] := by
  cases line with
  | nil => simp at h
  | cons c cs =>
    have hc : c = '/' := by simpa using h
    subst hc
    simp [List.takeWhile]

/-- C1: for every non-empty line the input handler does not panic and sends
exactly one value; that value is a command, with a non-empty verb, exactly
when the line's first character is the sigil, and otherwise it is the line
itself, unmodified, on the message channel. -/
theorem doneFunc_total_and_classifies (line : Str) (hne : line ≠ []) :
    ∃ r, doneFunc KeyEnter line = some ([], [r]) ∧
      ((∃ cmd, r = ChanSend.cmdchan cmd ∧ cmd.cmdtype ≠ []) ↔ line.head? = some '/') ∧
      (line.head? ≠ some '/' → r = ChanSend.msgchan line) := by
  by_cases h : line.head? = some '/'
  · refine ⟨_, doneFunc_command line h, ?_, fun h2 => absurd h h2⟩
    exact ⟨fun _ => h, fun _ => ⟨_, rfl, verb_ne_nil line h⟩⟩
  · refine ⟨_, doneFunc_message line hne h, ?_, fun _ => rfl⟩
    constructor
    · rintro ⟨cmd, hcmd, -⟩
      cases hcmd
    · intro h2
      exact absurd h2 h

/-- C1 at the command line `/u Bob` and at the chat line `hello`. -/
theorem doneFunc_total_and_classifies_witness :
    ("/u Bob".toList ≠ [] ∧
      ∃ r, doneFunc KeyEnter "/u Bob".toList = some ([], [r]) ∧
        ((∃ cmd, r = ChanSend.cmdchan cmd ∧ cmd.cmdtype ≠ []) ↔
          "/u Bob".toList.head? = some '/') ∧
        ("/u Bob".toList.head? ≠ some '/' → r = ChanSend.msgchan "/u Bob".toList)) ∧
    ("hello".toList ≠ [] ∧
      ∃ r, doneFunc KeyEnter "hello".toList = some ([], [r]) ∧
        ((∃ cmd, r = ChanSend.cmdchan cmd ∧ cmd.cmdtype ≠ []) ↔
          "hello".toList.head? = some '/') ∧
        ("hello".toList.head? ≠ some '/' → r = ChanSend.msgchan "hello".toList)) :=
  ⟨⟨by decide, doneFunc_total_and_classifies "/u Bob".toList (by decide)⟩,
   ⟨by decide, doneFunc_total_and_classifies "hello".toList (by decide)⟩⟩

/-- C2, as stated, fails: on the command line `/r my room` the handler sends
the argument `my`, while the remainder after the first run of whitespace is
`my room`. -/
theorem doneFunc_argument_is_not_remainder :
    "/r my room".toList.head? = some '/' ∧
    doneFunc KeyEnter "/r my room".toList =
      some ([], [ChanSend.cmdchan ⟨"/r".toList, "my".toList⟩]) ∧
    spec_verb "/r my room".toList = "/r".toList ∧
    spec_argument "/r my room".toList = "my room".toList ∧
    doneFunc KeyEnter "/r my room".toList ≠
      some ([], [ChanSend.cmdchan
        ⟨spec_verb "/r my room".toList, spec_argument "/r my room".toList⟩]) := by
  decide

/-- C2, amended: for every command line the handler splits at single space
characters; the verb is the text before the first space, sigil included, and
the argument is the text between the first space and the next one (up to the
end of the line when there is no next one), empty when the line has no
space. -/
theorem doneFunc_splits_at_spaces (line : Str) (h : line.head? = some '/') :
    doneFunc KeyEnter line = some ([], [ChanSend.cmdchan
      ⟨line.takeWhile (fun c => c != ' '),
       ((line.dropWhile (fun c => c != ' ')).drop 1).takeWhile (fun c => c != ' ')⟩]) :=
  doneFunc_command line h

/-- C2, amended, at `/r myroom` and `/u Bob`. -/
theorem doneFunc_splits_at_spaces_witness :
    ("/r myroom".toList.head? = some '/' ∧
      doneFunc KeyEnter "/r myroom".toList =
        some ([], [ChanSend.cmdchan ⟨"/r".toList, "myroom".toList⟩])) ∧
    ("/u Bob".toList.head? = some '/' ∧
      doneFunc KeyEnter "/u Bob".toList =
        some ([], [ChanSend.cmdchan ⟨"/u".toList, "Bob".toList⟩])) :=
  ⟨⟨by decide, doneFunc_splits_at_spaces "/r myroom".toList (by decide)⟩,
   ⟨by decide, doneFunc_splits_at_spaces "/u Bob".toList (by decide)⟩⟩

/-- C10, as stated, fails: the line made of one space is empty after
trimming, and the handler sends it on the message channel. -/
theorem doneFunc_sends_whitespace_line :
    " ".toList.all Char.isWhitespace = true ∧
    doneFunc KeyEnter " ".toList = some ([], [ChanSend.msgchan " ".toList]) := by
  decide

/-- C10, amended: the handler discards a line, sending nothing on either
channel, exactly when the line has length zero; on every other line, a
whitespace-only line included, it does not panic and makes exactly one send,
which is the line itself on the message channel when the line does not start
with the sigil. -/
theorem doneFunc_discards_exactly_empty (line : Str) :
    ∃ sent, doneFunc KeyEnter line = some ([], sent) ∧
      (sent = [] ↔ line = []) ∧
      (line ≠ [] → ∃ r, sent = [r]) ∧
      (line ≠ [] → line.head? ≠ some '/' → sent = [ChanSend.msgchan line]) := by
  by_cases hne : line = []
  · subst hne
    exact ⟨[], rfl, by simp, fun h => absurd rfl h, fun h => absurd rfl h⟩
  · obtain ⟨r, hr⟩ := doneFunc_sends_one line hne
    refine ⟨[r], hr, by simp [hne], fun _ => ⟨r, rfl⟩, fun _ hs => ?_⟩
    have hm := doneFunc_message line hne hs
    rw [hr] at hm
    simpa using hm

/-- C10, amended, at the empty line, which is discarded, and at the line of
two spaces, which is sent on the message channel. -/
theorem doneFunc_discards_exactly_empty_witness :
    (∃ sent, doneFunc KeyEnter [] = some ([], sent) ∧ sent = []) ∧
    ("  ".toList ≠ [] ∧ "  ".toList.head? ≠ some '/' ∧
      ∃ sent, doneFunc KeyEnter "  ".toList = some ([], sent) ∧
        sent = [ChanSend.msgchan "  ".toList]) := by
  obtain ⟨sent0, h0, hiff0, -, -⟩ := doneFunc_discards_exactly_empty []
  obtain ⟨sent, h, -, -, hmsg⟩ := doneFunc_discards_exactly_empty "  ".toList
  exact ⟨⟨sent0, h0, hiff0.mpr rfl⟩,
    by decide, by decide, sent, h, hmsg (by decide) (by decide)⟩


/-! ## The command executor -/

/-- C3: when the join fails for a non-empty room name, `/r` leaves the
current room handle and the message box as they were, and performs exactly
three operations: the join announcement, the call of `JoinRoom`, and one
notice reporting the failure with its cause; there is no `Leave`, no `Clear`
and no `SetTitle`. -/
theorem handlecommand_join_failure (env : Collaborators) (ui : UI) (name err : Str)
    (hname : name ≠ [])
    (hjoin : env.JoinRoom ui.ChatRoom.NodeHost ui.ChatRoom.Username name = Except.error err) :
    (handlecommand env ⟨"/r".toList, name⟩ ui).ChatRoom = ui.ChatRoom ∧
    (handlecommand env ⟨"/r".toList, name⟩ ui).messageBox = ui.messageBox ∧
    leaveTargets (handlecommand env ⟨"/r".toList, name⟩ ui).trace = leaveTargets ui.trace ∧
    (handlecommand env ⟨"/r".toList, name⟩ ui).trace = ui.trace ++
      [Op.LogChannel ui.ChatRoom.ptr
         ⟨"roomchange".toList, "joining new room '".toList ++ name ++ "'".toList⟩,
       Op.JoinRoom ui.ChatRoom.NodeHost ui.ChatRoom.Username name,
       Op.LogChannel ui.ChatRoom.ptr
         ⟨"jumperr".toList, "could not change chat room - ".toList ++ err⟩] := by
  simp [handlecommand, UI.emit, hname, hjoin, leaveTargets]

/-- C3 at the room name `ghost`, whose join fails. -/
theorem handlecommand_join_failure_witness :
    (handlecommand sampleEnv ⟨"/r".toList, "ghost".toList⟩ sampleUI).ChatRoom = sampleRoom ∧
    (handlecommand sampleEnv ⟨"/r".toList, "ghost".toList⟩ sampleUI).messageBox =
      sampleUI.messageBox ∧
    leaveTargets (handlecommand sampleEnv ⟨"/r".toList, "ghost".toList⟩ sampleUI).trace = [] ∧
    (handlecommand sampleEnv ⟨"/r".toList, "ghost".toList⟩ sampleUI).trace =
      [Op.LogChannel 1 ⟨"roomchange".toList, "joining new room 'ghost'".toList⟩,
       Op.JoinRoom 7 "alice".toList "ghost".toList,
       Op.LogChannel 1
         ⟨"jumperr".toList, "could not change chat room - no such topic".toList⟩] :=
  handlecommand_join_failure sampleEnv sampleUI "ghost".toList "no such topic".toList
    (by decide) rfl

/-- C4: when the join succeeds for a non-empty room name, yielding a handle
that carries the requested name, after `/r` the current room is that handle,
its name is the requested name, the command has invoked `Leave` exactly once,
on the old handle, and never on the new one, and the message box is titled
after the requested name. -/
theorem handlecommand_join_success (env : Collaborators) (ui : UI) (name : Str)
    (newchatroom : ChatRoom) (hname : name ≠ [])
    (hjoin : env.JoinRoom ui.ChatRoom.NodeHost ui.ChatRoom.Username name =
      Except.ok newchatroom)
    (hroom : newchatroom.RoomName = name) :
    (handlecommand env ⟨"/r".toList, name⟩ ui).ChatRoom = newchatroom ∧
    (handlecommand env ⟨"/r".toList, name⟩ ui).ChatRoom.RoomName = name ∧
    leaveTargets (handlecommand env ⟨"/r".toList, name⟩ ui).trace =
      leaveTargets ui.trace ++ [ui.ChatRoom.ptr] ∧
    (newchatroom.ptr ≠ ui.ChatRoom.ptr →
      (leaveTargets (handlecommand env ⟨"/r".toList, name⟩ ui).trace).count newchatroom.ptr =
        (leaveTargets ui.trace).count newchatroom.ptr) ∧
    (handlecommand env ⟨"/r".toList, name⟩ ui).messageBox.title =
      "ChatRoom-".toList ++ name := by
  refine ⟨?_, ?_, ?_, ?_, ?_⟩
  · simp [handlecommand, UI.emit, hname, hjoin]
  · simp [handlecommand, UI.emit, hname, hjoin, hroom]
  · simp [handlecommand, UI.emit, hname, hjoin, leaveTargets]
  · intro hfresh
    simp [handlecommand, UI.emit, hname, hjoin, leaveTargets, List.count_singleton, Ne.symm hfresh]
  · simp [handlecommand, UI.emit, hname, hjoin, hroom]

/-- C4 at the room name `general`, whose join succeeds. -/
theorem handlecommand_join_success_witness :
    (handlecommand sampleEnv ⟨"/r".toList, "general".toList⟩ sampleUI).ChatRoom =
      { ptr := 2, NodeHost := 7, RoomName := "general".toList, Username := "alice".toList } ∧
    (handlecommand sampleEnv ⟨"/r".toList, "general".toList⟩ sampleUI).ChatRoom.RoomName =
      "general".toList ∧
    leaveTargets (handlecommand sampleEnv ⟨"/r".toList, "general".toList⟩ sampleUI).trace =
      [1] ∧
    ((2 : Nat) ≠ 1 →
      (leaveTargets
        (handlecommand sampleEnv ⟨"/r".toList, "general".toList⟩ sampleUI).trace).count 2 = 0) ∧
    (handlecommand sampleEnv ⟨"/r".toList, "general".toList⟩ sampleUI).messageBox.title =
      "ChatRoom-general".toList :=
  handlecommand_join_success sampleEnv sampleUI "general".toList
    { ptr := 2, NodeHost := 7, RoomName := "general".toList, Username := "alice".toList }
    (by decide) rfl rfl

/-- C5: each of `/r`, `/u` and `/send` with an empty argument changes nothing
in the UI and performs exactly one operation, the send of a `badcmd` notice. -/
theorem handlecommand_missing_argument (env : Collaborators) (ui : UI) :
    handlecommand env ⟨"/r".toList, []⟩ ui =
      { ui with trace := ui.trace ++ [Op.LogChannel ui.ChatRoom.ptr
        ⟨"badcmd".toList, "missing room name for command".toList⟩] } ∧
    handlecommand env ⟨"/u".toList, []⟩ ui =
      { ui with trace := ui.trace ++ [Op.LogChannel ui.ChatRoom.ptr
        ⟨"badcmd".toList, "missing user name for command".toList⟩] } ∧
    handlecommand env ⟨"/send".toList, []⟩ ui =
      { ui with trace := ui.trace ++ [Op.LogChannel ui.ChatRoom.ptr
        ⟨"badcmd".toList, "missing file name for command".toList⟩] } := by
  simp [handlecommand, UI.emit]

/-- C6: a command whose verb is none of `/q`, `/r`, `/u`, `/send` changes
nothing in the UI, whatever its argument, and performs exactly one operation,
the send of a `badcmd` notice whose message is `unsupported command - `
followed by the verb. -/
theorem handlecommand_unsupported (env : Collaborators) (ui : UI) (verb arg : Str)
    (hverb : verb ∉ ["/q".toList, "/r".toList, "/u".toList, "/send".toList]) :
    handlecommand env ⟨verb, arg⟩ ui =
      { ui with trace := ui.trace ++ [Op.LogChannel ui.ChatRoom.ptr
        ⟨"badcmd".toList, "unsupported command - ".toList ++ verb⟩] } := by
  simp only [List.mem_cons, List.mem_singleton, List.not_mem_nil, or_false, not_or] at hverb
  obtain ⟨h1, h2, h3, h4⟩ := hverb
  simp only [handlecommand, UI.emit, h1, h2, h3, h4, if_false]

/-- C6 at the command `/zz foo`. -/
theorem handlecommand_unsupported_witness :
    "/zz".toList ∉ ["/q".toList, "/r".toList, "/u".toList, "/send".toList] ∧
    handlecommand sampleEnv ⟨"/zz".toList, "foo".toList⟩ sampleUI =
      { sampleUI with trace := [Op.LogChannel 1
        ⟨"badcmd".toList, "unsupported command - /zz".toList⟩] } :=
  ⟨by decide,
   handlecommand_unsupported sampleEnv sampleUI "/zz".toList "foo".toList (by decide)⟩

/-- C7: on a self-authored message the loop performs exactly two operations,
in this order: the send of the text on the current room's outgoing channel,
and one write to the message box of the line made of the prompt carrying the
current username, a space, the text and a newline; nothing else changes and
the loop goes on. -/
theorem starteventhandler_self_message (env : Collaborators) (ui : UI) (msg : Str) :
    starteventhandler_step env (Event.MsgInputs msg) ui =
      some ({ ui with
        messageBox := { ui.messageBox with
          text := ui.messageBox.text ++
            ("[blue]<".toList ++ ui.ChatRoom.Username ++ ">:[-]".toList ++ " ".toList ++
              msg ++ "\n".toList) }
        trace := ui.trace ++
          [Op.OutgoingMessages ui.ChatRoom.ptr msg,
           Op.Fprintf ("[blue]<".toList ++ ui.ChatRoom.Username ++ ">:[-]".toList ++
             " ".toList ++ msg ++ "\n".toList)] }, true) := by
  simp [starteventhandler_step, display_selfmessage, UI.printLine, UI.emit]

/-- C8: a successful `/r` performs exactly these operations, in this order:
the join announcement, the call of `JoinRoom` with the current host, the
current username and the requested name, the reassignment of the current
room to the new handle, the one-second sleep, `Leave` on the old handle,
`Clear` of the message box, and `SetTitle` with the new room's name.  The
state it leaves is the old one with the current room replaced by the new
handle, the message box emptied and titled `ChatRoom-` followed by the new
room's name, and those seven operations appended to the trace; the peer box
and the input box are untouched. -/
theorem handlecommand_migration_order (env : Collaborators) (ui : UI) (name : Str)
    (newchatroom : ChatRoom) (hname : name ≠ [])
    (hjoin : env.JoinRoom ui.ChatRoom.NodeHost ui.ChatRoom.Username name =
      Except.ok newchatroom) :
    handlecommand env ⟨"/r".toList, name⟩ ui =
      { ChatRoom := newchatroom
        messageBox := { title := "ChatRoom-".toList ++ newchatroom.RoomName, text := [] }
        peerBox := ui.peerBox
        inputBox := ui.inputBox
        trace := ui.trace ++
          [Op.LogChannel ui.ChatRoom.ptr
             ⟨"roomchange".toList, "joining new room '".toList ++ name ++ "'".toList⟩,
           Op.JoinRoom ui.ChatRoom.NodeHost ui.ChatRoom.Username name,
           Op.AssignChatRoom newchatroom.ptr,
           Op.Sleep 1000000000,
           Op.Leave ui.ChatRoom.ptr,
           Op.Clear,
           Op.SetTitle ("ChatRoom-".toList ++ newchatroom.RoomName)] } := by
  simp [handlecommand, UI.emit, hname, hjoin]

/-- C8 at the room name `general`. -/
theorem handlecommand_migration_order_witness :
    handlecommand sampleEnv ⟨"/r".toList, "general".toList⟩ sampleUI =
      { ChatRoom :=
          { ptr := 2, NodeHost := 7, RoomName := "general".toList, Username := "alice".toList }
        messageBox := { title := "ChatRoom-general".toList, text := [] }
        peerBox := { title := "Peers".toList, text := [] }
        inputBox := { label := "alice > ".toList, text := [] }
        trace :=
          [Op.LogChannel 1 ⟨"roomchange".toList, "joining new room 'general'".toList⟩,
           Op.JoinRoom 7 "alice".toList "general".toList,
           Op.AssignChatRoom 2,
           Op.Sleep 1000000000,
           Op.Leave 1,
           Op.Clear,
           Op.SetTitle "ChatRoom-general".toList] } :=
  handlecommand_migration_order sampleEnv sampleUI "general".toList
    { ptr := 2, NodeHost := 7, RoomName := "general".toList, Username := "alice".toList }
    (by decide) rfl

/-- C9: `/send` with a non-empty path changes nothing in the UI and performs
exactly two operations: the call of `SendFile` on the current room with that
path, then the send of one notice, `error` with the message
`Failed to send file: ` followed by the cause when the call failed, `info`
when it succeeded. -/
theorem handlecommand_send (env : Collaborators) (ui : UI) (path : Str) (hpath : path ≠ []) :
    (∀ err, env.SendFile ui.ChatRoom path = some err →
      handlecommand env ⟨"/send".toList, path⟩ ui =
        { ui with trace := ui.trace ++
          [Op.SendFile ui.ChatRoom.ptr path,
           Op.LogChannel ui.ChatRoom.ptr
             ⟨"error".toList, "Failed to send file: ".toList ++ err⟩] }) ∧
    (env.SendFile ui.ChatRoom path = none →
      handlecommand env ⟨"/send".toList, path⟩ ui =
        { ui with trace := ui.trace ++
          [Op.SendFile ui.ChatRoom.ptr path,
           Op.LogChannel ui.ChatRoom.ptr
             ⟨"info".toList, "File sent successfully!".toList⟩] }) := by
  constructor
  · intro err herr
    simp [handlecommand, UI.emit, hpath, herr]
  · intro herr
    simp [handlecommand, UI.emit, hpath, herr]

/-- C9 at `missing.txt`, whose send fails, and at `notes.txt`, whose send
succeeds. -/
theorem handlecommand_send_witness :
    handlecommand sampleEnv ⟨"/send".toList, "missing.txt".toList⟩ sampleUI =
      { sampleUI with trace :=
        [Op.SendFile 1 "missing.txt".toList,
         Op.LogChannel 1 ⟨"error".toList,
           "Failed to send file: open missing.txt: no such file".toList⟩] } ∧
    handlecommand sampleEnv ⟨"/send".toList, "notes.txt".toList⟩ sampleUI =
      { sampleUI with trace :=
        [Op.SendFile 1 "notes.txt".toList,
         Op.LogChannel 1 ⟨"info".toList, "File sent successfully!".toList⟩] } :=
  ⟨(handlecommand_send sampleEnv sampleUI "missing.txt".toList (by decide)).1
      "open missing.txt: no such file".toList rfl,
   (handlecommand_send sampleEnv sampleUI "notes.txt".toList (by decide)).2 rfl⟩

end Peerchat
